import Mathlib

/-!
# Kraken JSC bridge: `Element` and `BoundingClientRect` host objects

A shallow embedding of `bridge/bindings/jsc/DOM/element.cc` and
`bridge/bindings/jsc/host_object.cc`, followed by theorems about it.

Conventions of the embedding:

* a `JSValueRef` is a `JSValue`; a `nullptr` returned by a binding is `none`;
* `JSC_THROW_ERROR(ctx, msg, exception)` stores `msg` in the `exception` slot
  of the `Outcome`;
* everything the code reaches through a pointer (the render host, the UI
  command queue, the callback registry, the JS heap) is explicit state in
  `World`;
* function pointers installed by the host (`NativeElement`, `DartMethods`)
  are parameters.
-/

namespace Kraken

/-! ## Values -/

/-- A C `double` as this module sees it. The module never does arithmetic on
doubles: it tests `isnan`, compares with `BODY_TARGET_ID`, and passes the value on. -/
inductive JSNumber where
  | nan
  | inf (negative : Bool)
  | fin (q : ℚ)
  deriving DecidableEq

/-- The `isnan` of `<cmath>`. -/
def JSNumber.isnan : JSNumber → Bool
  | .nan => true
  | _ => false

/-- Conversion `int32_t → double`. -/
def JSNumber.ofInt (i : Int) : JSNumber := .fin i

/-- The C comparison `d == i` of a double with an integer constant. -/
def JSNumber.eqInt (d : JSNumber) (i : Int) : Bool :=
  match d with
  | .fin q => decide (q = (i : ℚ))
  | _ => false

/-- What kind of object a `JSObjectRef` points to, as far as this module asks. -/
inductive ObjectKind where
  | plain
  | function
  | promise
  deriving DecidableEq, Repr

/-- A `JSValueRef`. An object is its identity on the JS heap and its kind. -/
inductive JSValue where
  | undefined
  | null
  | boolean (b : Bool)
  | number (n : JSNumber)
  | string (s : String)
  | object (ref : Nat) (kind : ObjectKind)
  deriving DecidableEq

/-- The `JSValueIsString` of JavaScriptCore. -/
def JSValueIsString : JSValue → Bool
  | .string _ => true
  | _ => false

/-- The `JSValueIsNumber` of JavaScriptCore. -/
def JSValueIsNumber : JSValue → Bool
  | .number _ => true
  | _ => false

/-- The `JSValueIsObject` of JavaScriptCore. -/
def JSValueIsObject : JSValue → Bool
  | .object _ _ => true
  | _ => false

/-- The `JSObjectIsFunction` of JavaScriptCore, on the result of `JSValueToObject`. -/
def JSObjectIsFunction : JSValue → Bool
  | .object _ .function => true
  | _ => false

/-- What a binding hands back: the returned `JSValueRef` (`none` is `nullptr`)
and the content of `*exception` (`none` when nothing was thrown). -/
structure Outcome where
  value : Option JSValue
  exception : Option String
  deriving DecidableEq

/-- The `return nullptr;` of a binding that threw nothing. -/
def Outcome.nullptr : Outcome := ⟨none, none⟩

/-- The pair `JSC_THROW_ERROR(ctx, msg, exception); return nullptr;`. -/
def Outcome.throwError (msg : String) : Outcome := ⟨none, some msg⟩

/-! ## Nodes and element instances -/

/-- The `NodeType` of `node.h`. -/
inductive NodeType where
  | ELEMENT_NODE
  | TEXT_NODE
  | COMMENT_NODE
  | DOCUMENT_NODE
  | DOCUMENT_FRAGMENT_NODE
  deriving DecidableEq, Repr

/-- What `getProperty` reads of a child `NodeInstance`: `nodeType` and `object`. -/
structure NodeInstance where
  nodeType : NodeType
  object : Nat
  deriving DecidableEq, Repr

/-- The static binding functions of `JSElement::ElementInstance`. -/
inductive Binding where
  | getBoundingClientRect
  | click
  | scroll
  | scrollBy
  | toBlob
  | getAttribute
  | setAttribute
  deriving DecidableEq, Repr

/-- A function object made by `propertyBindingFunction`: its identity on the JS
heap, the name it was given and the binding it calls. -/
structure BoundFunction where
  ref : Nat
  name : String
  callback : Binding
  deriving DecidableEq, Repr

/-- The fields of `JSElement::ElementInstance` (with those it inherits from
`NodeInstance` and reads here). A null pointer field is `none`. -/
structure ElementInstance where
  contextId : Int
  eventTargetId : Int
  tagNameStringRef_ : String
  attributes : List (String × String)
  childNodes : List NodeInstance
  style : Option Nat
  _getBoundingClientRect : Option BoundFunction
  _click : Option BoundFunction
  _scroll : Option BoundFunction
  _scrollBy : Option BoundFunction
  _toBlob : Option BoundFunction
  _getAttribute : Option BoundFunction
  _setAttribute : Option BoundFunction
  deriving DecidableEq

/-! ## The attribute map

`attributes` is a `std::unordered_map<std::string, JSStringRef>`: keys are
unique, and iteration order is never observed by this module. -/

/-- The `map.contains(name)` of the attribute map. -/
def attributesContains (m : List (String × String)) (name : String) : Bool :=
  match m with
  | [] => false
  | (k, _) :: rest => if k = name then true else attributesContains rest name

/-- The read `map[name]` of the attribute map, for a key it contains. -/
def attributesAt (m : List (String × String)) (name : String) : Option String :=
  match m with
  | [] => none
  | (k, v) :: rest => if k = name then some v else attributesAt rest name

/-- The write `map[name] = value`: replaces the value of an existing key, adds a new key otherwise. -/
def attributesAssign (m : List (String × String)) (name value : String) : List (String × String) :=
  match m with
  | [] => [(name, value)]
  | (k, v) :: rest =>
    if k = name then (k, value) :: rest else (k, v) :: attributesAssign rest name value

/-- Embeds `JSElement::ElementInstance::setAttribute` (element.cc 284-319). -/
def setAttribute (self : ElementInstance) (arguments : List JSValue) : Outcome × ElementInstance :=
  match arguments with
  | [nameValueRef, attributeValueRef] =>
    if !JSValueIsString nameValueRef then
      (Outcome.throwError "Failed to execute 'setAttribute' on 'Element': name attribute is not valid.", self)
    else if !JSValueIsString attributeValueRef then
      (Outcome.throwError "Failed to execute 'setAttribute' on 'Element': value is not valid.", self)
    else
      match nameValueRef, attributeValueRef with
      | .string name, .string valueStringRef =>
        (Outcome.nullptr, { self with attributes := attributesAssign self.attributes name valueStringRef })
      | _, _ => (Outcome.nullptr, self)
  | _ =>
    (Outcome.throwError
      ("Failed to execute 'setAttribute' on 'Element': 2 arguments required, but only " ++
        toString arguments.length ++ " present"), self)

/-- Embeds `JSElement::ElementInstance::getAttribute` (element.cc 321-345). -/
def getAttribute (self : ElementInstance) (arguments : List JSValue) : Outcome × ElementInstance :=
  match arguments with
  | [nameValueRef] =>
    if !JSValueIsString nameValueRef then
      (Outcome.throwError "Failed to execute 'setAttribute' on 'Element': name attribute is not valid.", self)
    else
      match nameValueRef with
      | .string name =>
        if attributesContains self.attributes name then
          (⟨(attributesAt self.attributes name).map JSValue.string, none⟩, self)
        else
          (Outcome.nullptr, self)
      | _ => (Outcome.nullptr, self)
  | _ =>
    (Outcome.throwError
      "Failed to execute 'getAttribute' on 'Element': 1 argument required, but only 0 present", self)

/-- The element after a sequence of `setAttribute(name, value)` calls with string arguments, oldest first. -/
def setAttributes (self : ElementInstance) (calls : List (String × String)) : ElementInstance :=
  calls.foldl (fun e c => (setAttribute e [.string c.1, .string c.2]).2) self

/-- The value of the most recent call in `calls` (oldest first) whose name is exactly `n`. -/
def mostRecentSet (calls : List (String × String)) (n : String) : Option String :=
  (calls.reverse.find? (fun c => decide (c.1 = n))).map (fun c => c.2)

/-! ## The render host, the command queue and the JS heap -/

/-- The metric getters of `NativeElement`. -/
inductive NativeGetter where
  | getOffsetLeft
  | getOffsetTop
  | getOffsetWidth
  | getOffsetHeight
  | getClientWidth
  | getClientHeight
  | getClientTop
  | getClientLeft
  | getScrollTop
  | getScrollLeft
  | getScrollHeight
  | getScrollWidth
  deriving DecidableEq, Repr

/-- A call that crosses to the render host, through `getDartMethod()` or through `nativeElement`. -/
inductive HostCall where
  | requestUpdateFrame
  | initBody (contextId : Int)
  | getter (g : NativeGetter) (contextId targetId : Int)
  | getBoundingClientRect (contextId targetId : Int)
  | click (contextId targetId : Int)
  | scroll (contextId targetId : Int) (x y : JSNumber)
  | scrollBy (contextId targetId : Int) (x y : JSNumber)
  | toBlob (contextId : Int) (id devicePixelRatio : JSNumber)
  deriving DecidableEq

/-- The `UICommandType` of `ui_command_queue.h`; this module names `createElement` only. -/
inductive UICommandType where
  | createElement
  | other (code : Nat)
  deriving DecidableEq, Repr

/-- One `registerCommand(id, type, args, length, nativePtr)` on the queue of context `contextId`. -/
structure UICommand where
  contextId : Int
  id : JSNumber
  type : UICommandType
  args : List String
  deriving DecidableEq

/-- The `foundation::BridgeCallback::Context` made by `toBlob`: the JS context it
belongs to, `_callback` (resolve) and `_secondaryCallback` (reject). -/
structure BridgeCallbackContext where
  _context : Int
  _callback : JSValue
  _secondaryCallback : JSValue
  deriving DecidableEq

/-- The `NativeBoundingClientRect` struct filled by the render host. -/
structure NativeBoundingClientRect where
  x : JSNumber
  y : JSNumber
  width : JSNumber
  height : JSNumber
  top : JSNumber
  right : JSNumber
  bottom : JSNumber
  left : JSNumber
  deriving DecidableEq

/-- The function pointers of `NativeElement` that return a value. `H` is the
state of the render host, which a getter reads. -/
structure NativeElement (H : Type) where
  getOffsetLeft : H → Int → Int → JSNumber
  getOffsetTop : H → Int → Int → JSNumber
  getOffsetWidth : H → Int → Int → JSNumber
  getOffsetHeight : H → Int → Int → JSNumber
  getClientWidth : H → Int → Int → JSNumber
  getClientHeight : H → Int → Int → JSNumber
  getClientTop : H → Int → Int → JSNumber
  getClientLeft : H → Int → Int → JSNumber
  getScrollTop : H → Int → Int → JSNumber
  getScrollLeft : H → Int → Int → JSNumber
  getScrollHeight : H → Int → Int → JSNumber
  getScrollWidth : H → Int → Int → JSNumber
  getBoundingClientRect : H → Int → Int → NativeBoundingClientRect

/-- What `getDartMethod()` points to, as far as this module uses it:
`requestUpdateFrame` as its effect on the render host, and whether the `toBlob`
pointer is set. -/
structure DartMethods (H : Type) where
  requestUpdateFrame : H → H
  toBlob : Bool

/-- Everything outside the element instance that the code reads or writes. -/
structure World (H : Type) where
  host : H
  hostCalls : List HostCall
  nextObject : Nat
  commands : List UICommand
  callbackList : List BridgeCallbackContext

/-- Appends one call to the record of host calls. -/
def World.call {H : Type} (w : World H) (c : HostCall) : World H :=
  { w with hostCalls := w.hostCalls ++ [c] }

/-- The call `getDartMethod()->requestUpdateFrame()`. -/
def requestUpdateFrame {H : Type} (dart : DartMethods H) (w : World H) : World H :=
  { w with host := dart.requestUpdateFrame w.host, hostCalls := w.hostCalls ++ [.requestUpdateFrame] }

/-- A fresh object identity on the JS heap. -/
def World.allocate {H : Type} (w : World H) : Nat × World H :=
  (w.nextObject, { w with nextObject := w.nextObject + 1 })

/-- Modelled from the spec: `propertyBindingFunction` of the JS context helpers,
which is not in this module: it constructs a new callable with the given name,
bound to the instance and calling the given binding. -/
def propertyBindingFunction {H : Type} (w : World H) (name : String) (callback : Binding) :
    BoundFunction × World H :=
  (⟨w.nextObject, name, callback⟩, { w with nextObject := w.nextObject + 1 })

/-- The read `arguments[i]`. The array holds `argumentCount` values; a slot past
them holds whatever was in memory, given by `stale`. -/
def argumentAt (arguments : List JSValue) (stale : Nat → JSValue) (i : Nat) : JSValue :=
  arguments.getD i (stale i)

/-- The `JSValueToNumber` of JavaScriptCore: a number converts to itself; the
conversion of other values is the engine's, given by `coerce`. -/
def JSValueToNumber (coerce : JSValue → JSNumber) : JSValue → JSNumber
  | .number n => n
  | v => coerce v

/-- The `JSValueToStringCopy` of JavaScriptCore: a string converts to itself; the
conversion of other values is the engine's, given by `coerce`. -/
def JSValueToStringCopy (coerce : JSValue → String) : JSValue → String
  | .string s => s
  | v => coerce v

/-! ## Construction -/

/-- The constructor `ElementInstance(JSElement*, JSValueRef tagNameValue, double targetId, JSValueRef*)`
(element.cc 49-76). `contextId` is the `contextId` of the host class, `eventTargetId`
the id the `NodeInstance` base constructor assigned, `tagName` the result of
`JSValueToStringCopy(tagNameValue)`. -/
def ElementInstance.create {H : Type} (BODY_TARGET_ID : Int) (contextId eventTargetId : Int)
    (tagName : String) (targetId : JSNumber) (w : World H) : ElementInstance × World H :=
  let self : ElementInstance :=
    { contextId := contextId, eventTargetId := eventTargetId, tagNameStringRef_ := tagName,
      attributes := [], childNodes := [], style := none,
      _getBoundingClientRect := none, _click := none, _scroll := none, _scrollBy := none,
      _toBlob := none, _getAttribute := none, _setAttribute := none }
  let args : List String := [tagName]
  let targetId := if targetId.isnan then JSNumber.ofInt eventTargetId else targetId
  if targetId.eqInt BODY_TARGET_ID then
    (self, w.call (.initBody contextId))
  else
    (self, { w with commands := w.commands ++ [⟨contextId, targetId, .createElement, args⟩] })

/-- Embeds `JSElement::instanceConstructor` (element.cc 30-43). -/
def instanceConstructor {H : Type} (toNumber : JSValue → JSNumber) (toStringCopy : JSValue → String)
    (BODY_TARGET_ID : Int) (contextId eventTargetId : Int)
    (arguments : List JSValue) (stale : Nat → JSValue) (w : World H) : ElementInstance × World H :=
  let tagNameValue := argumentAt arguments stale 0
  let targetId :=
    if arguments.length = 2 then JSValueToNumber toNumber (argumentAt arguments stale 1) else JSNumber.nan
  ElementInstance.create BODY_TARGET_ID contextId eventTargetId
    (JSValueToStringCopy toStringCopy tagNameValue) targetId w

/-! ## Property dispatch -/

/-- The `ElementProperty` enum that `getProperty` switches on. -/
inductive ElementProperty where
  | kStyle
  | kNodeName
  | kOffsetLeft
  | kOffsetTop
  | kOffsetWidth
  | kOffsetHeight
  | kClientWidth
  | kClientHeight
  | kClientTop
  | kClientLeft
  | kScrollTop
  | kScrollLeft
  | kScrollHeight
  | kScrollWidth
  | kGetBoundingClientRect
  | kClick
  | kScroll
  | kScrollBy
  | kToBlob
  | kGetAttribute
  | kSetAttribute
  | kChildren
  deriving DecidableEq, Repr

/-- Embeds `JSElement::ElementInstance::getPropertyMap` (element.cc 98-123), entry by entry. -/
def getPropertyMap : List (String × ElementProperty) :=
  [("style", .kStyle),
   ("nodeName", .kNodeName),
   ("offsetLeft", .kOffsetLeft),
   ("offsetTop", .kOffsetTop),
   ("offsetWidth", .kOffsetWidth),
   ("offsetHeight", .kOffsetHeight),
   ("clientWidth", .kClientWidth),
   ("clientHeight", .kClientHeight),
   ("clientTop", .kClientTop),
   ("clientLeft", .kClientLeft),
   ("scrollTop", .kScrollTop),
   ("scrollLeft", .kScrollLeft),
   ("scrollHeight", .kScrollHeight),
   ("scrollWidth", .kScrollWidth),
   ("getBoundingClientRect", .kGetBoundingClientRect),
   ("click", .kClick),
   ("scroll", .kScroll),
   ("scrollBy", .kScrollBy),
   ("toBlob", .kToBlob),
   ("getAttribute", .kGetAttribute),
   ("setAttribute", .kGetAttribute),
   ("children", .kChildren)]

/-- The lookup in a property map: `none` when `!propertyMap.contains(name)`, else `propertyMap[name]`. -/
def propertyMapFind {α : Type} (m : List (String × α)) (name : String) : Option α :=
  match m with
  | [] => none
  | (k, v) :: rest => if k = name then some v else propertyMapFind rest name

/-- What `getProperty` returns. In an array, an entry is the object put in that
slot of the local `arguments` buffer, and `none` is a slot the loop never wrote. -/
inductive PropertyResult where
  | nullptr
  | value (v : JSValue)
  | object (ref : Nat)
  | function (f : BoundFunction)
  | array (ref : Nat) (entries : List (Option Nat))
  deriving DecidableEq

/-- One pass of the loop body of the `kChildren` case at index `i`. -/
def childrenStep (childNodes : List NodeInstance) (state : List (Option Nat) × Nat) (i : Nat) :
    List (Option Nat) × Nat :=
  match childNodes.get? i with
  | some child =>
    if child.nodeType = NodeType.ELEMENT_NODE then
      (state.1.set i (some child.object), state.2 + 1)
    else state
  | none => state

/-- The loop of the `kChildren` case (element.cc 238-246): the local buffer
`arguments[childNodes.size()]`, not initialised, and `elementCount` after the loop. -/
def childrenLoop (childNodes : List NodeInstance) : List (Option Nat) × Nat :=
  (List.range childNodes.length).foldl (childrenStep childNodes)
    (List.replicate childNodes.length none, 0)

/-- The two statements of a metric case: `requestUpdateFrame()`, then the native
getter with `(contextId, eventTargetId)`, its result wrapped by `JSValueMakeNumber`. -/
def metricProperty {H : Type} (dart : DartMethods H) (self : ElementInstance) (w : World H)
    (g : NativeGetter) (getter : H → Int → Int → JSNumber) : PropertyResult × ElementInstance × World H :=
  let w1 := requestUpdateFrame dart w
  (.value (.number (getter w1.host self.contextId self.eventTargetId)), self,
    w1.call (.getter g self.contextId self.eventTargetId))

/-- Embeds `JSElement::ElementInstance::getProperty` (element.cc 125-253). `base` is
`JSNode::NodeInstance::getProperty`, which is not in this module. -/
def getProperty {H : Type} (dart : DartMethods H) (native : NativeElement H)
    (base : String → PropertyResult) (self : ElementInstance) (w : World H) (name : String) :
    PropertyResult × ElementInstance × World H :=
  match propertyMapFind getPropertyMap name with
  | none => (base name, self, w)
  | some property =>
    match property with
    | .kStyle =>
      match self.style with
      | none =>
        let (ref, w1) := w.allocate
        (.object ref, { self with style := some ref }, w1)
      | some ref => (.object ref, self, w)
    | .kNodeName => (.value (.string self.tagNameStringRef_), self, w)
    | .kOffsetLeft => metricProperty dart self w .getOffsetLeft native.getOffsetLeft
    | .kOffsetTop => metricProperty dart self w .getOffsetTop native.getOffsetTop
    | .kOffsetWidth => metricProperty dart self w .getOffsetWidth native.getOffsetWidth
    | .kOffsetHeight => metricProperty dart self w .getOffsetHeight native.getOffsetHeight
    | .kClientWidth => metricProperty dart self w .getClientWidth native.getClientWidth
    | .kClientHeight => metricProperty dart self w .getClientHeight native.getClientHeight
    | .kClientTop => metricProperty dart self w .getClientTop native.getClientTop
    | .kClientLeft => metricProperty dart self w .getClientLeft native.getClientLeft
    | .kScrollTop => metricProperty dart self w .getScrollTop native.getScrollTop
    | .kScrollLeft => metricProperty dart self w .getScrollLeft native.getScrollLeft
    | .kScrollHeight => metricProperty dart self w .getScrollHeight native.getScrollHeight
    | .kScrollWidth => metricProperty dart self w .getScrollWidth native.getScrollWidth
    | .kGetBoundingClientRect =>
      match self._getBoundingClientRect with
      | none =>
        let (f, w1) := propertyBindingFunction w "getBoundingClientRect" .getBoundingClientRect
        (.function f, { self with _getBoundingClientRect := some f }, w1)
      | some f => (.function f, self, w)
    | .kClick =>
      match self._click with
      | none =>
        let (f, w1) := propertyBindingFunction w "click" .click
        (.function f, { self with _click := some f }, w1)
      | some f => (.function f, self, w)
    | .kScroll =>
      match self._scroll with
      | none =>
        let (f, w1) := propertyBindingFunction w "scroll" .scroll
        (.function f, { self with _scroll := some f }, w1)
      | some f => (.function f, self, w)
    | .kScrollBy =>
      match self._scrollBy with
      | none =>
        let (f, w1) := propertyBindingFunction w "scrollBy" .scrollBy
        (.function f, { self with _scrollBy := some f }, w1)
      | some f => (.function f, self, w)
    | .kToBlob =>
      match self._toBlob with
      | none =>
        let (f, w1) := propertyBindingFunction w "toBlob" .toBlob
        (.function f, { self with _toBlob := some f }, w1)
      | some f => (.function f, self, w)
    | .kGetAttribute =>
      match self._getAttribute with
      | none =>
        let (f, w1) := propertyBindingFunction w "getAttribute" .getAttribute
        (.function f, { self with _getAttribute := some f }, w1)
      | some f => (.function f, self, w)
    | .kSetAttribute =>
      match self._setAttribute with
      | none =>
        let (f, w1) := propertyBindingFunction w "setAttribute" .setAttribute
        (.function f, { self with _setAttribute := some f }, w1)
      | some f => (.function f, self, w)
    | .kChildren =>
      let loop := childrenLoop self.childNodes
      let (ref, w1) := w.allocate
      (.array ref (loop.1.take loop.2), self, w1)

/-! ## Bindings that call the render host -/

/-- The `BoundingClientRect` host object: its JS object and the native struct it owns. -/
structure BoundingClientRect where
  jsObject : Nat
  nativeBoundingClientRect : NativeBoundingClientRect
  deriving DecidableEq

/-- Embeds `JSElement::ElementInstance::getBoundingClientRect` (element.cc 87-96); the
binding returns the `jsObject` of the host object given here. -/
def getBoundingClientRect {H : Type} (dart : DartMethods H) (native : NativeElement H)
    (self : ElementInstance) (w : World H) : BoundingClientRect × World H :=
  let w1 := requestUpdateFrame dart w
  let nativeBoundingClientRect := native.getBoundingClientRect w1.host self.contextId self.eventTargetId
  let w2 := w1.call (.getBoundingClientRect self.contextId self.eventTargetId)
  let (ref, w3) := w2.allocate
  (⟨ref, nativeBoundingClientRect⟩, w3)

/-- Embeds `JSElement::ElementInstance::click` (element.cc 448-454). -/
def click {H : Type} (self : ElementInstance) (w : World H) : Outcome × World H :=
  (Outcome.nullptr, w.call (.click self.contextId self.eventTargetId))

/-- The number `0.0`. -/
def JSNumber.zero : JSNumber := .fin 0

/-- Embeds `JSElement::ElementInstance::scroll` (element.cc 456-477). -/
def scroll {H : Type} (toNumber : JSValue → JSNumber) (self : ElementInstance)
    (arguments : List JSValue) (stale : Nat → JSValue) (w : World H) : Outcome × World H :=
  let xValueRef := argumentAt arguments stale 0
  let yValueRef := argumentAt arguments stale 1
  let x := if JSValueIsNumber xValueRef && decide (arguments.length > 0) then
    JSValueToNumber toNumber xValueRef else JSNumber.zero
  let y := if JSValueIsNumber yValueRef && decide (arguments.length > 1) then
    JSValueToNumber toNumber yValueRef else JSNumber.zero
  (Outcome.nullptr, w.call (.scroll self.contextId self.eventTargetId x y))

/-- Embeds `JSElement::ElementInstance::scrollBy` (element.cc 479-500). -/
def scrollBy {H : Type} (toNumber : JSValue → JSNumber) (self : ElementInstance)
    (arguments : List JSValue) (stale : Nat → JSValue) (w : World H) : Outcome × World H :=
  let xValueRef := argumentAt arguments stale 0
  let yValueRef := argumentAt arguments stale 1
  let x := if JSValueIsNumber xValueRef && decide (arguments.length > 0) then
    JSValueToNumber toNumber xValueRef else JSNumber.zero
  let y := if JSValueIsNumber yValueRef && decide (arguments.length > 1) then
    JSValueToNumber toNumber yValueRef else JSNumber.zero
  (Outcome.nullptr, w.call (.scrollBy self.contextId self.eventTargetId x y))

/-! ## `toBlob` -/

/-- Modelled from the spec: `BridgeCallback::registerCallback` of
`foundation/bridge_callback.h`, which is not in this module: it registers the
completion context and requests the native operation by running `fn` on it. -/
def registerCallback {H : Type} (callbackContext : BridgeCallbackContext)
    (fn : BridgeCallbackContext → Int → World H → World H) (w : World H) : World H :=
  fn callbackContext callbackContext._context
    { w with callbackList := w.callbackList ++ [callbackContext] }

/-- The `promiseCallback` lambda of `toBlob` (element.cc 399-443): it builds the
callback context from `resolve` and `reject` and registers it with the call of
the `toBlob` dart method. -/
def promiseCallback {H : Type} (contextId : Int) (id devicePixelRatio : JSNumber)
    (resolveValueRef rejectValueRef : JSValue) (w : World H) : World H :=
  let callbackContext : BridgeCallbackContext := ⟨contextId, resolveValueRef, rejectValueRef⟩
  registerCallback callbackContext
    (fun _ contextId w => w.call (.toBlob contextId id devicePixelRatio)) w

/-- Modelled from the spec: `JSObjectMakePromise` of the JS context helpers,
which is not in this module: it creates a pending promise, runs the executor at
once with the promise's resolve and reject functions, and returns the promise. -/
def JSObjectMakePromise {H : Type} (executor : JSValue → JSValue → World H → World H)
    (w : World H) : Outcome × World H :=
  let promise := w.nextObject
  let resolve := w.nextObject + 1
  let reject := w.nextObject + 2
  let w1 := { w with nextObject := w.nextObject + 3 }
  (⟨some (.object promise .promise), none⟩,
    executor (.object resolve .function) (.object reject .function) w1)

/-- What `JSObjectGetPrivate(function)` points to: the pointer the callable was bound with. -/
inductive PrivateData where
  | elementInstance (self : ElementInstance)
  | jsContext (contextId : Int)
  deriving DecidableEq

/-- The private data of a callable made in `getProperty`: `this`, the second argument of
each `propertyBindingFunction` call there (element.cc 197-233), which `click`, `scroll`,
`scrollBy`, `getAttribute`, `setAttribute` and `getBoundingClientRect` read back as an
`ElementInstance*`. -/
def ElementInstance.boundPrivateData (self : ElementInstance) : PrivateData :=
  .elementInstance self

/-- Embeds `JSElement::ElementInstance::toBlob` (element.cc 357-446). `priv` is what
`JSObjectGetPrivate(function)` points to. Line 364 casts it to `JSContext*` without a check
and lines 395 and 445 use it as one: when it is a JS context, its id is the context of the
promise; when it is an element instance, the source fixes no result, and `wild` stands for
what the machine does with that instance and world. -/
def toBlob {H : Type} (dart : DartMethods H) (toNumber : JSValue → JSNumber)
    (wild : ElementInstance → World H → Outcome × World H) (priv : PrivateData)
    (arguments : List JSValue) (stale : Nat → JSValue) (w : World H) : Outcome × World H :=
  let idValueRef := argumentAt arguments stale 0
  let devicePixelRatioValueRef := argumentAt arguments stale 1
  let callbackValueRef := argumentAt arguments stale 2
  if !JSValueIsNumber idValueRef then
    (Outcome.throwError "Failed to export blob: missing element's id.", w)
  else if !JSValueIsNumber devicePixelRatioValueRef then
    (Outcome.throwError "Failed to export blob: parameter 2 (devicePixelRatio) is not an number.", w)
  else if !JSValueIsObject callbackValueRef then
    (Outcome.throwError "Failed to export blob': parameter 1 (callback) must be a function.", w)
  else if !JSObjectIsFunction callbackValueRef then
    (Outcome.throwError "Failed to export blob': parameter 1 (callback) must be a function.", w)
  else if !dart.toBlob then
    (Outcome.throwError "Failed to export blob: dart method (toBlob) is not registered.", w)
  else
    let id := JSValueToNumber toNumber idValueRef
    let devicePixelRatio := JSValueToNumber toNumber devicePixelRatioValueRef
    match priv with
    | .jsContext contextId => JSObjectMakePromise (promiseCallback contextId id devicePixelRatio) w
    | .elementInstance self => wild self w

/-- An argument the completion handler passes to a continuation: the string made
from the native error, or the `JSBlob` made from the copied bytes. -/
inductive CompletionValue where
  | string (s : String)
  | blob (data : List Nat)
  deriving DecidableEq, Repr

/-- One `JSObjectCallAsFunction(ctx, callee, global, 1, arguments, nullptr)`. -/
structure ContinuationCall where
  callee : JSValue
  arguments : List CompletionValue
  deriving DecidableEq

/-- The `handleTransientToBlobCallback` lambda (element.cc 408-431). `checkContext`
is the function of `bridge_jsc.h`; `error` is `none` for a null pointer; `bytes`
is the buffer the host passed and `length` the count it passed with it. The
result is the continuation calls made, in order. -/
def handleTransientToBlobCallback (checkContext : Int → Int → Bool)
    (callbackContext : BridgeCallbackContext) (contextId : Int) (error : Option String)
    (bytes : List Nat) (length : Nat) : List ContinuationCall :=
  let resolveValueRef := callbackContext._callback
  let rejectValueRef := callbackContext._secondaryCallback
  if !checkContext contextId callbackContext._context then []
  else
    match error with
    | some error => [⟨rejectValueRef, [.string error]⟩]
    | none =>
      let vec := bytes.take length
      [⟨resolveValueRef, [.blob vec]⟩]

/-! ## `BoundingClientRect` and `HostObject` -/

/-- The `BoundingClientRectProperty` enum. -/
inductive BoundingClientRectProperty where
  | kX
  | kY
  | kWidth
  | kHeight
  | kLeft
  | kTop
  | kRight
  | kBottom
  deriving DecidableEq, Repr

/-- Embeds `BoundingClientRect::getPropertyMap` (element.cc 543-551). -/
def BoundingClientRect.getPropertyMap : List (String × BoundingClientRectProperty) :=
  [("x", .kX), ("y", .kY), ("width", .kWidth), ("height", .kHeight),
   ("top", .kTop), ("left", .kLeft), ("right", .kRight), ("bottom", .kBottom)]

/-- Embeds `BoundingClientRect::getProperty` (element.cc 505-531). -/
def BoundingClientRect.getProperty (self : BoundingClientRect) (name : String) : Option JSValue :=
  match propertyMapFind BoundingClientRect.getPropertyMap name with
  | none => none
  | some property =>
    match property with
    | .kX => some (.number self.nativeBoundingClientRect.x)
    | .kY => some (.number self.nativeBoundingClientRect.y)
    | .kWidth => some (.number self.nativeBoundingClientRect.width)
    | .kHeight => some (.number self.nativeBoundingClientRect.height)
    | .kLeft => some (.number self.nativeBoundingClientRect.left)
    | .kTop => some (.number self.nativeBoundingClientRect.top)
    | .kRight => some (.number self.nativeBoundingClientRect.right)
    | .kBottom => some (.number self.nativeBoundingClientRect.bottom)

/-- Embeds `HostObject::getProperty` (host_object.cc 56-58). -/
def HostObject.getProperty (_name : String) : Option JSValue := none

/-- Embeds `HostObject::setProperty` (host_object.cc 60), which `BoundingClientRect` inherits: an empty body. -/
def HostObject.setProperty (self : BoundingClientRect) (_name : String) (_value : JSValue) :
    BoundingClientRect := self

/-- Embeds `HostObject::proxyGetProperty` (host_object.cc 19-29), the `get` of a host object
whose `getProperty` override is `getProperty`. `handleException` is the method of
`JSContext`, which is not in this module; `exception` is what `*exception` holds, which no
`getProperty` of a host object here writes. -/
def HostObject.proxyGetProperty (handleException : Option String → Bool)
    (getProperty : String → Option JSValue) (name : String) (exception : Option String) : Outcome :=
  let ret := getProperty name
  if !handleException exception then ⟨none, exception⟩ else ⟨ret, exception⟩

/-- Embeds `HostObject::proxySetProperty` (host_object.cc 31-39) on a `BoundingClientRect`,
which does not override `setProperty`: the returned flag and the object after the write. -/
def HostObject.proxySetProperty (handleException : Option String → Bool) (self : BoundingClientRect)
    (name : String) (value : JSValue) (exception : Option String) : Bool × BoundingClientRect :=
  let self1 := HostObject.setProperty self name value
  (handleException exception, self1)

/-- The object after a sequence of property writes `(name, value)`, oldest first. -/
def BoundingClientRect.afterWrites (handleException : Option String → Bool)
    (self : BoundingClientRect) (writes : List (String × JSValue)) : BoundingClientRect :=
  writes.foldl (fun o wr => (HostObject.proxySetProperty handleException o wr.1 wr.2 none).2) self

/-- The element property that reads through the getter `g`: the getter's name without its `get`. -/
def NativeGetter.propertyName : NativeGetter → String
  | .getOffsetLeft => "offsetLeft"
  | .getOffsetTop => "offsetTop"
  | .getOffsetWidth => "offsetWidth"
  | .getOffsetHeight => "offsetHeight"
  | .getClientWidth => "clientWidth"
  | .getClientHeight => "clientHeight"
  | .getClientTop => "clientTop"
  | .getClientLeft => "clientLeft"
  | .getScrollTop => "scrollTop"
  | .getScrollLeft => "scrollLeft"
  | .getScrollHeight => "scrollHeight"
  | .getScrollWidth => "scrollWidth"

/-- The function pointer of `NativeElement` that `g` names. -/
def NativeElement.getter {H : Type} (native : NativeElement H) : NativeGetter → H → Int → Int → JSNumber
  | .getOffsetLeft => native.getOffsetLeft
  | .getOffsetTop => native.getOffsetTop
  | .getOffsetWidth => native.getOffsetWidth
  | .getOffsetHeight => native.getOffsetHeight
  | .getClientWidth => native.getClientWidth
  | .getClientHeight => native.getClientHeight
  | .getClientTop => native.getClientTop
  | .getClientLeft => native.getClientLeft
  | .getScrollTop => native.getScrollTop
  | .getScrollLeft => native.getScrollLeft
  | .getScrollHeight => native.getScrollHeight
  | .getScrollWidth => native.getScrollWidth

/-- The seven method property names of an element. -/
def methodPropertyNames : List String :=
  ["click", "scroll", "scrollBy", "toBlob", "getAttribute", "setAttribute", "getBoundingClientRect"]

/-! ## Concrete inputs -/

/-- A fresh element of context 1 with event target id 5 and tag `div`, for concrete evaluations. -/
def sampleElement : ElementInstance :=
  { contextId := 1, eventTargetId := 5, tagNameStringRef_ := "div",
    attributes := [], childNodes := [], style := none,
    _getBoundingClientRect := none, _click := none, _scroll := none, _scrollBy := none,
    _toBlob := none, _getAttribute := none, _setAttribute := none }

/-- The children of node type `ELEMENT_NODE`, in child-list order: what the `children` property is to hold. -/
def elementChildren (childNodes : List NodeInstance) : List Nat :=
  (childNodes.filter (fun c => decide (c.nodeType = NodeType.ELEMENT_NODE))).map (fun c => c.object)

/-- A render host whose state counts the layout frames requested, with nothing recorded yet. -/
def sampleWorld : World Nat :=
  { host := 0, hostCalls := [], nextObject := 100, commands := [], callbackList := [] }

/-- Dart methods for `sampleWorld`, with `toBlob` registered. -/
def sampleDart : DartMethods Nat :=
  { requestUpdateFrame := fun frames => frames + 1, toBlob := true }

/-- A text node (object 10) followed by an element (object 11). -/
def textThenElement : List NodeInstance :=
  [⟨NodeType.TEXT_NODE, 10⟩, ⟨NodeType.ELEMENT_NODE, 11⟩]

/-- A native result with eight different field values. -/
def sampleRect : NativeBoundingClientRect :=
  { x := .fin 1, y := .fin 2, width := .fin 3, height := .fin 4,
    top := .fin 5, right := .fin 6, bottom := .fin 7, left := .fin 8 }

/-- Native getters for `sampleWorld`: every metric is the target id it was asked about. -/
def sampleNative : NativeElement Nat :=
  { getOffsetLeft := fun _ _ targetId => JSNumber.ofInt targetId,
    getOffsetTop := fun _ _ targetId => JSNumber.ofInt targetId,
    getOffsetWidth := fun _ _ targetId => JSNumber.ofInt targetId,
    getOffsetHeight := fun _ _ targetId => JSNumber.ofInt targetId,
    getClientWidth := fun _ _ targetId => JSNumber.ofInt targetId,
    getClientHeight := fun _ _ targetId => JSNumber.ofInt targetId,
    getClientTop := fun _ _ targetId => JSNumber.ofInt targetId,
    getClientLeft := fun _ _ targetId => JSNumber.ofInt targetId,
    getScrollTop := fun _ _ targetId => JSNumber.ofInt targetId,
    getScrollLeft := fun _ _ targetId => JSNumber.ofInt targetId,
    getScrollHeight := fun _ _ targetId => JSNumber.ofInt targetId,
    getScrollWidth := fun _ _ targetId => JSNumber.ofInt targetId,
    getBoundingClientRect := fun _ _ _ => sampleRect }

/-- A stand-in for `wild` in concrete evaluations: returns `nullptr` and leaves the world alone. -/
def sampleWild : ElementInstance → World Nat → Outcome × World Nat :=
  fun _ w => (Outcome.nullptr, w)

/-! ## Theorems -/

theorem attributesContains_assign_self (m : List (String × String)) (k v : String) :
    attributesContains (attributesAssign m k v) k = true := by
  induction m with
  | nil => simp [attributesAssign, attributesContains]
  | cons p rest ih =>
    obtain ⟨a, b⟩ := p
    by_cases h : a = k <;> simp [attributesAssign, attributesContains, h, ih]

theorem attributesAt_assign_self (m : List (String × String)) (k v : String) :
    attributesAt (attributesAssign m k v) k = some v := by
  induction m with
  | nil => simp [attributesAssign, attributesAt]
  | cons p rest ih =>
    obtain ⟨a, b⟩ := p
    by_cases h : a = k <;> simp [attributesAssign, attributesAt, h, ih]

theorem attributesContains_assign_other (m : List (String × String)) (k v n : String) (h : k ≠ n) :
    attributesContains (attributesAssign m k v) n = attributesContains m n := by
  induction m with
  | nil => simp [attributesAssign, attributesContains, h]
  | cons p rest ih =>
    obtain ⟨a, b⟩ := p
    by_cases h1 : a = k
    · subst h1; simp [attributesAssign, attributesContains, h]
    · by_cases h2 : a = n
      · subst h2; simp [attributesAssign, attributesContains, h1]
      · simp [attributesAssign, attributesContains, h1, h2, ih]

theorem attributesAt_assign_other (m : List (String × String)) (k v n : String) (h : k ≠ n) :
    attributesAt (attributesAssign m k v) n = attributesAt m n := by
  induction m with
  | nil => simp [attributesAssign, attributesAt, h]
  | cons p rest ih =>
    obtain ⟨a, b⟩ := p
    by_cases h1 : a = k
    · subst h1; simp [attributesAssign, attributesAt, h]
    · by_cases h2 : a = n
      · subst h2; simp [attributesAssign, attributesAt, h1]
      · simp [attributesAssign, attributesAt, h1, h2, ih]

theorem setAttribute_strings (self : ElementInstance) (k v : String) :
    setAttribute self [.string k, .string v] =
      (Outcome.nullptr, { self with attributes := attributesAssign self.attributes k v }) := by
  simp [setAttribute, JSValueIsString]

theorem getAttribute_string (self : ElementInstance) (n : String) :
    getAttribute self [.string n] =
      (if attributesContains self.attributes n then
          (⟨(attributesAt self.attributes n).map JSValue.string, none⟩, self)
        else (Outcome.nullptr, self)) := by
  simp [getAttribute, JSValueIsString]

theorem setAttributes_append (self : ElementInstance) (calls : List (String × String))
    (c : String × String) :
    setAttributes self (calls ++ [c]) =
      (setAttribute (setAttributes self calls) [.string c.1, .string c.2]).2 := by
  simp [setAttributes, List.foldl_append]

theorem mostRecentSet_append (calls : List (String × String)) (c : String × String) (n : String) :
    mostRecentSet (calls ++ [c]) n = if c.1 = n then some c.2 else mostRecentSet calls n := by
  by_cases h : c.1 = n <;> simp [mostRecentSet, List.find?_cons, h]

theorem setAttributes_attributes (self : ElementInstance) (calls : List (String × String))
    (n : String) :
    attributesContains (setAttributes self calls).attributes n =
        ((mostRecentSet calls n).isSome || attributesContains self.attributes n) ∧
      attributesAt (setAttributes self calls).attributes n =
        ((mostRecentSet calls n).orElse (fun _ => attributesAt self.attributes n)) := by
  induction calls using List.reverseRecOn with
  | nil => simp [setAttributes, mostRecentSet]
  | append_singleton calls c ih =>
    obtain ⟨k, v⟩ := c
    rw [setAttributes_append, setAttribute_strings, mostRecentSet_append]
    by_cases h : k = n
    · subst h
      simp [attributesContains_assign_self, attributesAt_assign_self]
    · simp [attributesContains_assign_other _ _ _ _ h, attributesAt_assign_other _ _ _ _ h, h, ih]

/-- C1: after any sequence of valid `setAttribute(name, value)` calls on any element,
`getAttribute(n)` returns the value of the most recent call whose name is exactly `n`,
whatever was set under other names, and raises nothing. -/
theorem getAttribute_returns_most_recent_setAttribute (self : ElementInstance)
    (calls : List (String × String)) (n v : String) (h : mostRecentSet calls n = some v) :
    (getAttribute (setAttributes self calls) [.string n]).1 = ⟨some (.string v), none⟩ := by
  have hc := (setAttributes_attributes self calls n).1
  have ha := (setAttributes_attributes self calls n).2
  rw [h] at hc ha
  simp at hc ha
  rw [getAttribute_string, hc, ha]
  simp

/-- C1 at `setAttribute("data-x","1")`, `setAttribute("Data-X","9")`, `setAttribute("data-x","2")`:
`getAttribute("data-x")` is `"2"`. -/
theorem getAttribute_returns_most_recent_setAttribute_witness :
    mostRecentSet [("data-x", "1"), ("Data-X", "9"), ("data-x", "2")] "data-x" = some "2" ∧
      (getAttribute (setAttributes sampleElement [("data-x", "1"), ("Data-X", "9"), ("data-x", "2")])
        [.string "data-x"]).1 = ⟨some (.string "2"), none⟩ :=
  ⟨by decide, getAttribute_returns_most_recent_setAttribute sampleElement
    [("data-x", "1"), ("Data-X", "9"), ("data-x", "2")] "data-x" "2" (by decide)⟩

/-- C2: a `setAttribute` call whose argument count is not 2 or one of whose arguments is
not a string, and a `getAttribute` call whose argument count is not 1 or whose argument is
not a string, raises an exception and leaves the attribute mapping as it was. -/
theorem attribute_bindings_reject_bad_arguments (self : ElementInstance) (arguments : List JSValue) :
    ((arguments.length ≠ 2 ∨ ∃ v ∈ arguments, JSValueIsString v = false) →
        (setAttribute self arguments).1.exception.isSome = true ∧
          (setAttribute self arguments).2.attributes = self.attributes) ∧
      ((arguments.length ≠ 1 ∨ ∃ v ∈ arguments, JSValueIsString v = false) →
        (getAttribute self arguments).1.exception.isSome = true ∧
          (getAttribute self arguments).2.attributes = self.attributes) := by
  constructor
  · intro h
    match arguments, h with
    | [], _ => simp [setAttribute, Outcome.throwError]
    | [_], _ => simp [setAttribute, Outcome.throwError]
    | _ :: _ :: _ :: _, _ => simp [setAttribute, Outcome.throwError]
    | [a, b], h =>
      have h2 : JSValueIsString a = false ∨ JSValueIsString b = false := by
        rcases h with h | ⟨v, hv, hs⟩
        · simp at h
        · simp at hv
          rcases hv with rfl | rfl
          · exact Or.inl hs
          · exact Or.inr hs
      by_cases ha : JSValueIsString a = true
      · have hb : JSValueIsString b = false := by
          rcases h2 with h2 | h2
          · rw [ha] at h2; cases h2
          · exact h2
        simp [setAttribute, Outcome.throwError, ha, hb]
      · simp [setAttribute, Outcome.throwError, ha]
  · intro h
    match arguments, h with
    | [], _ => simp [getAttribute, Outcome.throwError]
    | _ :: _ :: _, _ => simp [getAttribute, Outcome.throwError]
    | [a], h =>
      have ha : JSValueIsString a = false := by
        rcases h with h | ⟨v, hv, hs⟩
        · simp at h
        · simp at hv
          subst hv
          exact hs
      simp [getAttribute, Outcome.throwError, ha]

/-- C2 at `setAttribute("a", 3)` and `getAttribute()` on an element holding one attribute. -/
theorem attribute_bindings_reject_bad_arguments_witness :
    ((setAttribute { sampleElement with attributes := [("k", "v")] }
          [.string "a", .number (.fin 3)]).1.exception.isSome = true ∧
        (setAttribute { sampleElement with attributes := [("k", "v")] }
          [.string "a", .number (.fin 3)]).2.attributes = [("k", "v")]) ∧
      ((getAttribute { sampleElement with attributes := [("k", "v")] } []).1.exception.isSome = true ∧
        (getAttribute { sampleElement with attributes := [("k", "v")] } []).2.attributes = [("k", "v")]) :=
  ⟨(attribute_bindings_reject_bad_arguments { sampleElement with attributes := [("k", "v")] }
      [.string "a", .number (.fin 3)]).1
      (Or.inr ⟨.number (.fin 3), by simp, rfl⟩),
    (attribute_bindings_reject_bad_arguments { sampleElement with attributes := [("k", "v")] } []).2
      (Or.inl (by decide))⟩

/-- C3, the code at a child list `[text, element]`: the loop stores the element at
slot 1 of the buffer and counts one element, so the array is built from slot 0,
which was never written; the element child (object 11) is not in it. -/
theorem children_of_text_then_element {H : Type} (dart : DartMethods H) (native : NativeElement H)
    (base : String → PropertyResult) (w : World H) :
    childrenLoop textThenElement = ([none, some 11], 1) ∧
      (getProperty dart native base { sampleElement with childNodes := textThenElement } w "children").1 =
        PropertyResult.array w.nextObject [none] ∧
      elementChildren textThenElement = [11] := by
  refine ⟨by decide, ?_, by decide⟩
  simp [getProperty, propertyMapFind, getPropertyMap, World.allocate, childrenLoop, childrenStep,
    textThenElement, sampleElement, List.range, List.range.loop]

/-- C4, the code at the name `setAttribute`: the property map gives it the tag of
`getAttribute`, and reading it on a fresh element yields the callable bound to the
`getAttribute` binding, cached in `_getAttribute`; `_setAttribute` stays null. -/
theorem setAttribute_property_resolves_to_getAttribute {H : Type} (dart : DartMethods H)
    (native : NativeElement H) (base : String → PropertyResult) (w : World H) :
    propertyMapFind getPropertyMap "setAttribute" = some ElementProperty.kGetAttribute ∧
      propertyMapFind getPropertyMap "getAttribute" = some ElementProperty.kGetAttribute ∧
      (getProperty dart native base sampleElement w "setAttribute").1 =
        PropertyResult.function ⟨w.nextObject, "getAttribute", Binding.getAttribute⟩ ∧
      (getProperty dart native base sampleElement w "setAttribute").2.1._setAttribute = none := by
  refine ⟨by decide, by decide, ?_, ?_⟩ <;>
    simp [getProperty, propertyMapFind, getPropertyMap, propertyBindingFunction, sampleElement]

theorem create_effects {H : Type} (BODY_TARGET_ID contextId eventTargetId : Int) (tagName : String)
    (targetId : JSNumber) (w : World H) :
    (ElementInstance.create BODY_TARGET_ID contextId eventTargetId tagName targetId w).2 =
      (if (if targetId.isnan then JSNumber.ofInt eventTargetId else targetId).eqInt BODY_TARGET_ID then
        { w with hostCalls := w.hostCalls ++ [HostCall.initBody contextId] }
      else
        { w with commands := w.commands ++
            [⟨contextId, if targetId.isnan then JSNumber.ofInt eventTargetId else targetId,
              UICommandType.createElement, [tagName]⟩] }) := by
  unfold ElementInstance.create
  simp only [World.call]
  generalize (if targetId.isnan then JSNumber.ofInt eventTargetId else targetId) = id
  by_cases h : id.eqInt BODY_TARGET_ID = true <;> simp [h]

/-- C5: constructing an element with tag name `tag` and a target id, explicit (`t`, second
argument) or implicit (the assigned `eventTargetId`, when the constructor gets no second
argument or `t` is NaN): if the id equals `BODY_TARGET_ID`, `initBody` is called and no
command is enqueued; otherwise exactly one command is enqueued, `createElement` with that id
and the argument list `[tag]`, and `initBody` is not called. -/
theorem construction_calls_initBody_or_enqueues_createElement {H : Type}
    (toNumber : JSValue → JSNumber) (toStringCopy : JSValue → String)
    (BODY_TARGET_ID contextId eventTargetId : Int) (tag : String) (t : JSNumber)
    (stale : Nat → JSValue) (w : World H) :
    ((instanceConstructor toNumber toStringCopy BODY_TARGET_ID contextId eventTargetId
          [.string tag, .number t] stale w).2 =
        (if (if t.isnan then JSNumber.ofInt eventTargetId else t).eqInt BODY_TARGET_ID then
          { w with hostCalls := w.hostCalls ++ [HostCall.initBody contextId] }
        else
          { w with commands := w.commands ++
              [⟨contextId, if t.isnan then JSNumber.ofInt eventTargetId else t,
                UICommandType.createElement, [tag]⟩] })) ∧
      ((instanceConstructor toNumber toStringCopy BODY_TARGET_ID contextId eventTargetId
          [.string tag] stale w).2 =
        (if (JSNumber.ofInt eventTargetId).eqInt BODY_TARGET_ID then
          { w with hostCalls := w.hostCalls ++ [HostCall.initBody contextId] }
        else
          { w with commands := w.commands ++
              [⟨contextId, JSNumber.ofInt eventTargetId, UICommandType.createElement, [tag]⟩] })) := by
  constructor
  · simp only [instanceConstructor, create_effects]
    simp [argumentAt, JSValueToNumber, JSValueToStringCopy]
  · simp only [instanceConstructor, create_effects]
    simp [argumentAt, JSValueToStringCopy, JSNumber.isnan]

theorem construction_div_42 (toNumber : JSValue → JSNumber) (toStringCopy : JSValue → String)
    (stale : Nat → JSValue) :
    (instanceConstructor toNumber toStringCopy (-1) 1 5
        [.string "div", .number (.fin 42)] stale sampleWorld).2.commands =
      [⟨1, .fin 42, UICommandType.createElement, ["div"]⟩] ∧
    (instanceConstructor toNumber toStringCopy (-1) 1 5
        [.string "div", .number (.fin 42)] stale sampleWorld).2.hostCalls = [] ∧
    (instanceConstructor toNumber toStringCopy (-1) 1 5
        [.string "body", .number (.fin (-1))] stale sampleWorld).2.commands = [] ∧
    (instanceConstructor toNumber toStringCopy (-1) 1 5
        [.string "body", .number (.fin (-1))] stale sampleWorld).2.hostCalls = [HostCall.initBody 1] := by
  simp only [instanceConstructor, create_effects]
  simp [argumentAt, JSValueToNumber, JSValueToStringCopy, JSNumber.isnan, JSNumber.eqInt, sampleWorld]
  norm_num

/-- C6, the code at `toBlob(7, 2)`, two numbers and nothing else, called on the callable
that the `toBlob` property of an element yields, with the dart method registered. The
binding reads `arguments[2]`, a slot past the two arguments, and requires a function there:
when the slot holds none (as when it holds `undefined`) the call throws and returns no
promise; when it happens to hold one, the call goes on to use the element instance as a
`JSContext`, and no promise is determined either. -/
theorem toBlob_two_numbers_returns_no_promise (toNumber : JSValue → JSNumber)
    (wild : ElementInstance → World Nat → Outcome × World Nat) (self : ElementInstance)
    (stale : Nat → JSValue) (w : World Nat) :
    toBlob sampleDart toNumber wild self.boundPrivateData [.number (.fin 7), .number (.fin 2)]
        stale w =
      (if JSObjectIsFunction (stale 2) then wild self w
        else (Outcome.throwError "Failed to export blob': parameter 1 (callback) must be a function.", w)) ∧
    (toBlob sampleDart toNumber wild self.boundPrivateData [.number (.fin 7), .number (.fin 2)]
        (fun _ => JSValue.undefined) w).1 =
      ⟨none, some "Failed to export blob': parameter 1 (callback) must be a function."⟩ := by
  constructor
  · cases hs : stale 2 with
    | object ref kind =>
      cases kind <;>
        simp [toBlob, argumentAt, JSValueIsNumber, JSValueIsObject, JSObjectIsFunction, hs,
          sampleDart, ElementInstance.boundPrivateData]
    | _ =>
      simp [toBlob, argumentAt, JSValueIsNumber, JSValueIsObject, JSObjectIsFunction, hs]
  · simp [toBlob, argumentAt, JSValueIsNumber, JSValueIsObject, Outcome.throwError]

theorem toBlob_with_callback_on_element {H : Type} (dart : DartMethods H)
    (toNumber : JSValue → JSNumber) (wild : ElementInstance → World H → Outcome × World H)
    (self : ElementInstance) (id devicePixelRatio : JSNumber) (callback : Nat)
    (stale : Nat → JSValue) (w : World H) (hreg : dart.toBlob = true) :
    toBlob dart toNumber wild self.boundPrivateData
        [.number id, .number devicePixelRatio, .object callback .function] stale w = wild self w := by
  simp [toBlob, argumentAt, JSValueIsNumber, JSValueIsObject, JSObjectIsFunction, hreg,
    ElementInstance.boundPrivateData]

/-- C7: for every `toBlob` completion `(contextId, error, bytes, length)` with `length` bytes
in the buffer: if `checkContext` fails, no continuation is called; otherwise, if an error
is present, the only call is reject with the error string; otherwise the only call is
resolve with a blob holding the first `length` bytes of the buffer, exactly `length` of them. -/
theorem toBlob_completion_calls_one_continuation (checkContext : Int → Int → Bool)
    (callbackContext : BridgeCallbackContext) (contextId : Int) (error : Option String)
    (bytes : List Nat) (length : Nat) (hlen : length ≤ bytes.length) :
    (checkContext contextId callbackContext._context = false →
        handleTransientToBlobCallback checkContext callbackContext contextId error bytes length = []) ∧
      (checkContext contextId callbackContext._context = true → ∀ e, error = some e →
        handleTransientToBlobCallback checkContext callbackContext contextId error bytes length =
          [⟨callbackContext._secondaryCallback, [.string e]⟩]) ∧
      (checkContext contextId callbackContext._context = true → error = none →
        handleTransientToBlobCallback checkContext callbackContext contextId error bytes length =
            [⟨callbackContext._callback, [.blob (bytes.take length)]⟩] ∧
          (bytes.take length).length = length ∧
          ∀ i, i < length → (bytes.take length).get? i = bytes.get? i) := by
  refine ⟨?_, ?_, ?_⟩
  · intro h
    simp [handleTransientToBlobCallback, h]
  · intro h e he
    simp [handleTransientToBlobCallback, h, he]
  · intro h he
    refine ⟨by simp [handleTransientToBlobCallback, h, he], by simp [hlen], ?_⟩
    intro i hi
    simp [List.getElem?_take, hi]

/-- C7 at a live context with resolve 101 and reject 102: bytes `[1,2,3]` resolve with a
blob of `[1,2,3]`, error `"x"` rejects with `"x"`; at a dead context nothing is called. -/
theorem toBlob_completion_calls_one_continuation_witness :
    handleTransientToBlobCallback (fun a b => decide (a = b))
        ⟨1, .object 101 .function, .object 102 .function⟩ 1 none [1, 2, 3] 3 =
      [⟨.object 101 .function, [.blob [1, 2, 3]]⟩] ∧
    handleTransientToBlobCallback (fun a b => decide (a = b))
        ⟨1, .object 101 .function, .object 102 .function⟩ 1 (some "x") [] 0 =
      [⟨.object 102 .function, [.string "x"]⟩] ∧
    handleTransientToBlobCallback (fun a b => decide (a = b))
        ⟨1, .object 101 .function, .object 102 .function⟩ 2 none [1, 2, 3] 3 = [] :=
  ⟨((toBlob_completion_calls_one_continuation (fun a b => decide (a = b))
      ⟨1, .object 101 .function, .object 102 .function⟩ 1 none [1, 2, 3] 3 (by decide)).2.2
      (by decide) rfl).1,
    (toBlob_completion_calls_one_continuation (fun a b => decide (a = b))
      ⟨1, .object 101 .function, .object 102 .function⟩ 1 (some "x") [] 0 (by decide)).2.1
      (by decide) "x" rfl,
    (toBlob_completion_calls_one_continuation (fun a b => decide (a = b))
      ⟨1, .object 101 .function, .object 102 .function⟩ 2 none [1, 2, 3] 3 (by decide)).1
      (by decide)⟩

/-- C8: a `toBlob` call in which the id is not a number, the pixel ratio is not a number,
the third argument is not a function, or the dart method is not registered raises an
exception, returns no promise, calls nothing on the host and registers no callback. -/
theorem toBlob_rejects_before_any_native_call {H : Type} (dart : DartMethods H)
    (toNumber : JSValue → JSNumber) (wild : ElementInstance → World H → Outcome × World H)
    (priv : PrivateData) (arguments : List JSValue)
    (stale : Nat → JSValue) (w : World H)
    (h : JSValueIsNumber (argumentAt arguments stale 0) = false ∨
      JSValueIsNumber (argumentAt arguments stale 1) = false ∨
      JSObjectIsFunction (argumentAt arguments stale 2) = false ∨
      dart.toBlob = false) :
    (toBlob dart toNumber wild priv arguments stale w).1.exception.isSome = true ∧
      (toBlob dart toNumber wild priv arguments stale w).1.value = none ∧
      (toBlob dart toNumber wild priv arguments stale w).2.hostCalls = w.hostCalls ∧
      (toBlob dart toNumber wild priv arguments stale w).2.callbackList = w.callbackList ∧
      (toBlob dart toNumber wild priv arguments stale w).2.nextObject = w.nextObject := by
  unfold toBlob
  simp only []
  split
  · simp [Outcome.throwError]
  · split
    · simp [Outcome.throwError]
    · split
      · simp [Outcome.throwError]
      · split
        · simp [Outcome.throwError]
        · split
          · simp [Outcome.throwError]
          · rename_i h0 h1 h2 h3 h4
            simp at h0 h1 h3 h4
            rcases h with h | h | h | h
            · rw [h0] at h; cases h
            · rw [h1] at h; cases h
            · rw [h3] at h; cases h
            · rw [h4] at h; cases h

/-- C8 at `toBlob("7", 2, f)`, whose id is a string. -/
theorem toBlob_rejects_before_any_native_call_witness :
    (toBlob sampleDart (fun _ => JSNumber.nan) sampleWild sampleElement.boundPrivateData
        [.string "7", .number (.fin 2), .object 50 .function]
        (fun _ => JSValue.undefined) sampleWorld).1.exception.isSome = true ∧
      (toBlob sampleDart (fun _ => JSNumber.nan) sampleWild sampleElement.boundPrivateData
        [.string "7", .number (.fin 2), .object 50 .function]
        (fun _ => JSValue.undefined) sampleWorld).1.value = none ∧
      (toBlob sampleDart (fun _ => JSNumber.nan) sampleWild sampleElement.boundPrivateData
        [.string "7", .number (.fin 2), .object 50 .function]
        (fun _ => JSValue.undefined) sampleWorld).2.hostCalls = [] ∧
      (toBlob sampleDart (fun _ => JSNumber.nan) sampleWild sampleElement.boundPrivateData
        [.string "7", .number (.fin 2), .object 50 .function]
        (fun _ => JSValue.undefined) sampleWorld).2.callbackList = [] ∧
      (toBlob sampleDart (fun _ => JSNumber.nan) sampleWild sampleElement.boundPrivateData
        [.string "7", .number (.fin 2), .object 50 .function]
        (fun _ => JSValue.undefined) sampleWorld).2.nextObject = 100 :=
  toBlob_rejects_before_any_native_call sampleDart (fun _ => JSNumber.nan) sampleWild
    sampleElement.boundPrivateData
    [.string "7", .number (.fin 2), .object 50 .function]
    (fun _ => JSValue.undefined) sampleWorld (Or.inl rfl)

/-- Reading a method property twice in a row returns the same callable, and the second
read constructs nothing. -/
theorem method_property_second_read_is_cached {H : Type} (dart : DartMethods H)
    (native : NativeElement H) (base : String → PropertyResult) (self : ElementInstance)
    (w : World H) (name : String) (hn : name ∈ methodPropertyNames) :
    (getProperty dart native base (getProperty dart native base self w name).2.1
        (getProperty dart native base self w name).2.2 name).1 =
      (getProperty dart native base self w name).1 ∧
    (getProperty dart native base (getProperty dart native base self w name).2.1
        (getProperty dart native base self w name).2.2 name).2.2.nextObject =
      (getProperty dart native base self w name).2.2.nextObject := by
  simp only [methodPropertyNames, List.mem_cons, List.mem_singleton, List.not_mem_nil, or_false] at hn
  rcases hn with rfl | rfl | rfl | rfl | rfl | rfl | rfl
  · cases h : self._click <;>
      simp [getProperty, propertyMapFind, getPropertyMap, propertyBindingFunction, h]
  · cases h : self._scroll <;>
      simp [getProperty, propertyMapFind, getPropertyMap, propertyBindingFunction, h]
  · cases h : self._scrollBy <;>
      simp [getProperty, propertyMapFind, getPropertyMap, propertyBindingFunction, h]
  · cases h : self._toBlob <;>
      simp [getProperty, propertyMapFind, getPropertyMap, propertyBindingFunction, h]
  · cases h : self._getAttribute <;>
      simp [getProperty, propertyMapFind, getPropertyMap, propertyBindingFunction, h]
  · cases h : self._getAttribute <;>
      simp [getProperty, propertyMapFind, getPropertyMap, propertyBindingFunction, h]
  · cases h : self._getBoundingClientRect <;>
      simp [getProperty, propertyMapFind, getPropertyMap, propertyBindingFunction, h]

/-- C9, the code at a fresh element read as `getAttribute`, then `setAttribute`: the
first read of `setAttribute` constructs no callable (the heap counter does not move) and
returns the callable of `getAttribute`; `_setAttribute` stays null. -/
theorem first_setAttribute_read_constructs_nothing {H : Type} (dart : DartMethods H)
    (native : NativeElement H) (base : String → PropertyResult) (w : World H) :
    (getProperty dart native base sampleElement w "getAttribute").1 =
        PropertyResult.function ⟨w.nextObject, "getAttribute", Binding.getAttribute⟩ ∧
      (getProperty dart native base (getProperty dart native base sampleElement w "getAttribute").2.1
          (getProperty dart native base sampleElement w "getAttribute").2.2 "setAttribute").1 =
        PropertyResult.function ⟨w.nextObject, "getAttribute", Binding.getAttribute⟩ ∧
      (getProperty dart native base (getProperty dart native base sampleElement w "getAttribute").2.1
          (getProperty dart native base sampleElement w "getAttribute").2.2 "setAttribute").2.2.nextObject =
        (getProperty dart native base sampleElement w "getAttribute").2.2.nextObject ∧
      (getProperty dart native base (getProperty dart native base sampleElement w "getAttribute").2.1
          (getProperty dart native base sampleElement w "getAttribute").2.2 "setAttribute").2.1._setAttribute =
        none := by
  simp [getProperty, propertyMapFind, getPropertyMap, propertyBindingFunction, sampleElement]

/-- C10: for each of the twelve metric properties, one read calls `requestUpdateFrame` and
then the native getter of the same name with the instance's context id and target id, and
returns that getter's value on the host state left by `requestUpdateFrame`; a
`getBoundingClientRect` call does the same with the native `getBoundingClientRect`. -/
theorem metric_reads_request_frame_then_read_native {H : Type} (dart : DartMethods H)
    (native : NativeElement H) (base : String → PropertyResult) (self : ElementInstance)
    (w : World H) (g : NativeGetter) :
    ((getProperty dart native base self w g.propertyName).1 =
        PropertyResult.value (.number
          (native.getter g (dart.requestUpdateFrame w.host) self.contextId self.eventTargetId)) ∧
      (getProperty dart native base self w g.propertyName).2.2.hostCalls =
        w.hostCalls ++ [HostCall.requestUpdateFrame,
          HostCall.getter g self.contextId self.eventTargetId]) ∧
    ((getBoundingClientRect dart native self w).1.nativeBoundingClientRect =
        native.getBoundingClientRect (dart.requestUpdateFrame w.host) self.contextId self.eventTargetId ∧
      (getBoundingClientRect dart native self w).2.hostCalls =
        w.hostCalls ++ [HostCall.requestUpdateFrame,
          HostCall.getBoundingClientRect self.contextId self.eventTargetId]) := by
  constructor
  · cases g <;>
      simp [getProperty, propertyMapFind, getPropertyMap, NativeGetter.propertyName,
        NativeElement.getter, metricProperty, requestUpdateFrame, World.call]
  · simp [getBoundingClientRect, requestUpdateFrame, World.call, World.allocate]

theorem afterWrites_eq (handleException : Option String → Bool) (self : BoundingClientRect)
    (writes : List (String × JSValue)) :
    BoundingClientRect.afterWrites handleException self writes = self := by
  induction writes with
  | nil => rfl
  | cons wr rest ih =>
    simp only [BoundingClientRect.afterWrites, HostObject.proxySetProperty, HostObject.setProperty,
      List.foldl_cons] at ih ⊢
    exact ih

/-- C11: for a `BoundingClientRect` built from a native result `r`, after any sequence of
property writes, reading each of `x`, `y`, `width`, `height`, `top`, `right`, `bottom`,
`left` returns the field of `r` with that name, and the object is what it was before the
writes. -/
theorem boundingClientRect_reads_native_fields (handleException : Option String → Bool)
    (jsObject : Nat) (r : NativeBoundingClientRect) (writes : List (String × JSValue)) :
    BoundingClientRect.afterWrites handleException ⟨jsObject, r⟩ writes = ⟨jsObject, r⟩ ∧
      (BoundingClientRect.afterWrites handleException ⟨jsObject, r⟩ writes).getProperty "x" =
        some (.number r.x) ∧
      (BoundingClientRect.afterWrites handleException ⟨jsObject, r⟩ writes).getProperty "y" =
        some (.number r.y) ∧
      (BoundingClientRect.afterWrites handleException ⟨jsObject, r⟩ writes).getProperty "width" =
        some (.number r.width) ∧
      (BoundingClientRect.afterWrites handleException ⟨jsObject, r⟩ writes).getProperty "height" =
        some (.number r.height) ∧
      (BoundingClientRect.afterWrites handleException ⟨jsObject, r⟩ writes).getProperty "top" =
        some (.number r.top) ∧
      (BoundingClientRect.afterWrites handleException ⟨jsObject, r⟩ writes).getProperty "right" =
        some (.number r.right) ∧
      (BoundingClientRect.afterWrites handleException ⟨jsObject, r⟩ writes).getProperty "bottom" =
        some (.number r.bottom) ∧
      (BoundingClientRect.afterWrites handleException ⟨jsObject, r⟩ writes).getProperty "left" =
        some (.number r.left) := by
  rw [afterWrites_eq]
  refine ⟨rfl, ?_, ?_, ?_, ?_, ?_, ?_, ?_, ?_⟩ <;>
    simp [BoundingClientRect.getProperty, BoundingClientRect.getPropertyMap, propertyMapFind]

theorem boundingClientRect_sample_reads :
    (BoundingClientRect.afterWrites (fun e => e.isNone) ⟨9, sampleRect⟩
        [("left", .number (.fin 100)), ("top", .string "a")]).getProperty "left" =
      some (.number (.fin 8)) ∧
    (BoundingClientRect.afterWrites (fun e => e.isNone) ⟨9, sampleRect⟩
        [("left", .number (.fin 100)), ("top", .string "a")]).getProperty "top" =
      some (.number (.fin 5)) := by
  rw [afterWrites_eq]
  constructor <;>
    simp [BoundingClientRect.getProperty, BoundingClientRect.getPropertyMap, propertyMapFind, sampleRect]

theorem mostRecentSet_eq_none (calls : List (String × String)) (n : String)
    (h : ∀ c ∈ calls, c.1 ≠ n) : mostRecentSet calls n = none := by
  simp only [mostRecentSet, Option.map_eq_none', List.find?_eq_none, List.mem_reverse]
  intro c hc
  simpa using h c hc

theorem create_instance {H : Type} (BODY_TARGET_ID contextId eventTargetId : Int) (tagName : String)
    (targetId : JSNumber) (w : World H) :
    (ElementInstance.create BODY_TARGET_ID contextId eventTargetId tagName targetId w).1 =
      { contextId := contextId, eventTargetId := eventTargetId, tagNameStringRef_ := tagName,
        attributes := [], childNodes := [], style := none,
        _getBoundingClientRect := none, _click := none, _scroll := none, _scrollBy := none,
        _toBlob := none, _getAttribute := none, _setAttribute := none } := by
  unfold ElementInstance.create
  simp only []
  generalize (if targetId.isnan then JSNumber.ofInt eventTargetId else targetId) = id
  by_cases h : id.eqInt BODY_TARGET_ID = true <;> simp [h]

/-- C12: on an element as constructed and then given any sequence of valid `setAttribute`
calls, `getAttribute(n)` for a string `n` that is the name of none of these calls (a name
that differs from a stored one only in letter case is such a name) returns `nullptr`, the
binding's undefined, and raises no exception. -/
theorem getAttribute_of_unset_name_is_undefined {H : Type} (BODY_TARGET_ID contextId eventTargetId : Int)
    (tagName : String) (targetId : JSNumber) (w : World H)
    (calls : List (String × String)) (n : String) (h : ∀ c ∈ calls, c.1 ≠ n) :
    (getAttribute
        (setAttributes
          (ElementInstance.create BODY_TARGET_ID contextId eventTargetId tagName targetId w).1 calls)
        [.string n]).1 = ⟨none, none⟩ := by
  rw [create_instance]
  have hc := (setAttributes_attributes
    { contextId := contextId, eventTargetId := eventTargetId, tagNameStringRef_ := tagName,
      attributes := [], childNodes := [], style := none,
      _getBoundingClientRect := none, _click := none, _scroll := none, _scrollBy := none,
      _toBlob := none, _getAttribute := none, _setAttribute := none } calls n).1
  rw [mostRecentSet_eq_none calls n h] at hc
  simp [attributesContains] at hc
  rw [getAttribute_string, hc]
  simp [Outcome.nullptr]

/-- C12 at an element of tag `div` after `setAttribute("data-x","1")`: `getAttribute("Data-X")`
returns `nullptr` and raises nothing. -/
theorem getAttribute_of_unset_name_is_undefined_witness :
    (∀ c ∈ [(("data-x", "1") : String × String)], c.1 ≠ "Data-X") ∧
      (getAttribute
        (setAttributes (ElementInstance.create (-1) 1 5 "div" JSNumber.nan sampleWorld).1
          [("data-x", "1")])
        [.string "Data-X"]).1 = ⟨none, none⟩ :=
  ⟨by decide, getAttribute_of_unset_name_is_undefined (-1) 1 5 "div" JSNumber.nan sampleWorld
    [("data-x", "1")] "Data-X" (by decide)⟩

/-- C13: for a property name that is not a key of the property table, `getProperty` of an
element returns exactly what the base `NodeInstance::getProperty` returns and changes
nothing; `getProperty` of a `BoundingClientRect` and of a plain `HostObject` return
`nullptr`, and the `get` entry point built on them returns `nullptr` with the exception
slot as it found it. -/
theorem unknown_property_name_falls_back {H : Type} (dart : DartMethods H) (native : NativeElement H)
    (base : String → PropertyResult) (self : ElementInstance) (w : World H)
    (handleException : Option String → Bool) (rect : BoundingClientRect)
    (exception : Option String) (name : String) :
    (propertyMapFind getPropertyMap name = none →
        getProperty dart native base self w name = (base name, self, w)) ∧
      (propertyMapFind BoundingClientRect.getPropertyMap name = none →
        rect.getProperty name = none ∧
          HostObject.proxyGetProperty handleException rect.getProperty name exception =
            ⟨none, exception⟩) ∧
      (HostObject.getProperty name = none ∧
        HostObject.proxyGetProperty handleException HostObject.getProperty name exception =
          ⟨none, exception⟩) := by
  refine ⟨?_, ?_, ?_⟩
  · intro h
    simp [getProperty, h]
  · intro h
    have hr : rect.getProperty name = none := by
      simp [BoundingClientRect.getProperty, h]
    refine ⟨hr, ?_⟩
    simp [HostObject.proxyGetProperty, hr]
  · refine ⟨rfl, ?_⟩
    simp [HostObject.proxyGetProperty, HostObject.getProperty]

/-- C13 at the name `foo`, on an element whose base handler returns `nullptr` and on a
`BoundingClientRect`. -/
theorem unknown_property_name_falls_back_witness :
    getProperty sampleDart sampleNative (fun _ => PropertyResult.nullptr) sampleElement sampleWorld "foo" =
        (PropertyResult.nullptr, sampleElement, sampleWorld) ∧
      (BoundingClientRect.getProperty ⟨9, sampleRect⟩ "foo" = none ∧
        HostObject.proxyGetProperty (fun e => e.isNone) (BoundingClientRect.getProperty ⟨9, sampleRect⟩)
          "foo" none = ⟨none, none⟩) :=
  ⟨(unknown_property_name_falls_back sampleDart sampleNative (fun _ => PropertyResult.nullptr)
      sampleElement sampleWorld (fun e => e.isNone) ⟨9, sampleRect⟩ none "foo").1 (by decide),
    (unknown_property_name_falls_back sampleDart sampleNative (fun _ => PropertyResult.nullptr)
      sampleElement sampleWorld (fun e => e.isNone) ⟨9, sampleRect⟩ none "foo").2.1 (by decide)⟩

theorem implicit_target_id_is_eventTargetId {H : Type} (toNumber : JSValue → JSNumber)
    (toStringCopy : JSValue → String) (BODY_TARGET_ID contextId eventTargetId : Int) (tag : String)
    (stale : Nat → JSValue) (w : World H) :
    (instanceConstructor toNumber toStringCopy BODY_TARGET_ID contextId eventTargetId
        [.string tag] stale w).1.eventTargetId = eventTargetId ∧
      ((JSNumber.ofInt eventTargetId).eqInt BODY_TARGET_ID = false →
        (instanceConstructor toNumber toStringCopy BODY_TARGET_ID contextId eventTargetId
            [.string tag] stale w).2.commands =
          w.commands ++ [⟨contextId, JSNumber.ofInt eventTargetId, UICommandType.createElement, [tag]⟩]) := by
  constructor
  · simp only [instanceConstructor, create_instance]
  · intro h
    simp only [instanceConstructor, create_effects]
    simp [argumentAt, JSValueToStringCopy, JSNumber.isnan, h]

/-- C14, the code at `new Element("div", 42)` in context 1 when the base constructor
assigned event target id 5 and `BODY_TARGET_ID` is -1: the `createElement` command carries
id 42, while `click`, `scroll`, `scrollBy`, the `offsetLeft` getter and
`getBoundingClientRect` of the same instance pass id 5 to the render host. -/
theorem explicit_target_id_not_used_for_native_calls (toNumber : JSValue → JSNumber)
    (toStringCopy : JSValue → String) (stale : Nat → JSValue) (base : String → PropertyResult) :
    (instanceConstructor toNumber toStringCopy (-1) 1 5
        [.string "div", .number (.fin 42)] stale sampleWorld).2.commands =
      [⟨1, .fin 42, UICommandType.createElement, ["div"]⟩] ∧
    (click (instanceConstructor toNumber toStringCopy (-1) 1 5
        [.string "div", .number (.fin 42)] stale sampleWorld).1 sampleWorld).2.hostCalls =
      [HostCall.click 1 5] ∧
    (scroll toNumber (instanceConstructor toNumber toStringCopy (-1) 1 5
        [.string "div", .number (.fin 42)] stale sampleWorld).1 [] stale sampleWorld).2.hostCalls =
      [HostCall.scroll 1 5 JSNumber.zero JSNumber.zero] ∧
    (scrollBy toNumber (instanceConstructor toNumber toStringCopy (-1) 1 5
        [.string "div", .number (.fin 42)] stale sampleWorld).1 [] stale sampleWorld).2.hostCalls =
      [HostCall.scrollBy 1 5 JSNumber.zero JSNumber.zero] ∧
    (getProperty sampleDart sampleNative base (instanceConstructor toNumber toStringCopy (-1) 1 5
        [.string "div", .number (.fin 42)] stale sampleWorld).1 sampleWorld "offsetLeft").2.2.hostCalls =
      [HostCall.requestUpdateFrame, HostCall.getter NativeGetter.getOffsetLeft 1 5] ∧
    (getBoundingClientRect sampleDart sampleNative (instanceConstructor toNumber toStringCopy (-1) 1 5
        [.string "div", .number (.fin 42)] stale sampleWorld).1 sampleWorld).2.hostCalls =
      [HostCall.requestUpdateFrame, HostCall.getBoundingClientRect 1 5] := by
  simp only [instanceConstructor, create_instance, create_effects]
  refine ⟨?_, ?_, ?_, ?_, ?_, ?_⟩
  · simp [argumentAt, JSValueToNumber, JSValueToStringCopy, JSNumber.isnan, JSNumber.eqInt, sampleWorld]
    norm_num
  · simp [click, World.call, sampleWorld]
  · simp [scroll, World.call, sampleWorld]
  · simp [scrollBy, World.call, sampleWorld]
  · simp [getProperty, propertyMapFind, getPropertyMap, metricProperty, requestUpdateFrame, World.call,
      sampleWorld]
  · simp [getBoundingClientRect, requestUpdateFrame, World.call, World.allocate, sampleWorld]

end Kraken
